import Mathlib

/-!
Shallow embedding of the flowharmony decision-support engine (src/app.py).

Python numbers are modelled exactly: `int` as `ℤ`, `float` arithmetic as `ℚ`
(the source only ever combines small integers with decimal constants, so exact
rational arithmetic coincides with the intended real-number semantics), and
Python `int(x)` / `round(x)` as explicit truncation / banker's rounding on `ℚ`.
Strings keep their Python values.  Per-request mutation of a `ServiceDay`
becomes explicit state passing; the Flask layer (routing, JSON decoding) and
the wall clock are environment parameters of the embedded handlers.
-/

/-- Python `int(x)` applied to a float: truncation toward zero. -/
def pyInt (q : ℚ) : ℤ := if 0 ≤ q then ⌊q⌋ else ⌈q⌉

/-- Python `round(x)` on a float with no digits argument: round half to even. -/
def pyRound (q : ℚ) : ℤ :=
  if q - ⌊q⌋ < 1/2 then ⌊q⌋
  else if 1/2 < q - ⌊q⌋ then ⌊q⌋ + 1
  else if ⌊q⌋ % 2 = 0 then ⌊q⌋ else ⌊q⌋ + 1

/-- Python `round(x, 4)`: round to four decimal places (ties to even). -/
def round4 (q : ℚ) : ℚ := (pyRound (q * 10000) : ℚ) / 10000

/-- Python `xs[-n:]`: the last `n` elements of a list. -/
def lastN {α : Type} (n : ℕ) (xs : List α) : List α := xs.drop (xs.length - n)

theorem pyInt_intCast (n : ℤ) : pyInt (n : ℚ) = n := by
  unfold pyInt
  split <;> simp

/-- Site configuration (src/app.py:43-52); the two lunch-window
`datetime.time` fields only drive wave scheduling and are kept as minutes
from midnight. -/
structure SiteConfig where
  site_id : String
  name : String
  lunch_window_start : ℤ
  lunch_window_end : ℤ
  wave_duration_minutes : ℤ
  portion_grams : ℤ
  pan_capacity_portions : ℤ
  dish_name : String
deriving Repr, DecidableEq

/-- The single configured site (src/app.py:242-253).  `get_site_config`
falls back to this default for every unknown site id (src/app.py:1144-1145),
so all request handlers operate with these portion/capacity numbers. -/
def flavoria : SiteConfig :=
  { site_id := "flavoria"
    name := "Flavoria"
    lunch_window_start := 11 * 60
    lunch_window_end := 13 * 60 + 30
    wave_duration_minutes := 30
    portion_grams := 160
    pan_capacity_portions := 20
    dish_name := "Salmon" }

/-- Decision card snapshot (src/app.py:65-81).  The `timestamp` is kept as
its ISO string (only equality of timestamps is ever used, via
`timestamp.isoformat()`). -/
structure DecisionCard where
  site_id : String
  wave_index : ℤ
  timestamp : String
  predicted_diners_next_wave : ℤ
  suggested_grams : ℤ
  pan_fill_percent : ℤ
  satisfaction_percent : Option ℤ
  dish_name : String
  dish_type : String
  suggested_portions : ℚ
  note : String
  service_slot : String
  slot_label : String
  station_label : Option String := none
  status : String := "pending"
deriving Repr, DecidableEq

/-- A single answer inside a detailed-feedback `responses` map.  The source
stores `str(value)`; a numeric answer round-trips through `float(raw)` while
a categorical answer is a non-numeric token that fails that parse
(src/app.py:1257-1283). -/
inductive Resp where
  | num (q : ℚ)
  | cat (s : String)
deriving Repr, DecidableEq

/-- Detailed feedback entry (src/app.py:2371-2376).  `stale` models the
source's time filter: an entry is skipped iff its timestamp parses and is
older than the 90-minute cutoff (src/app.py:1247-1255); entries with a
missing or unparseable timestamp are not skipped. -/
structure FeedbackEntry where
  stale : Bool
  responses : List (String × Resp)
deriving Repr, DecidableEq

/-- Reaction-stream entry (src/app.py:826-836), reduced to the fields the
engine reads back. -/
structure Reaction where
  timestamp : String
  response_key : String
  value : String
deriving Repr, DecidableEq

/-- Mutable per-(site, date) session state (src/app.py:111-130).  The
display-only waste/CO2 accounting fields are omitted: nothing in the engine
reads them back into a computation under verification. -/
structure ServiceDay where
  site_id : String
  total_expected_diners : ℤ
  diners_so_far : ℤ
  wave_index : ℤ
  pan_fill_percent : ℤ
  feedback_scores : List ℤ
  detailed_feedback : List FeedbackEntry
  reaction_stream : List Reaction
  last_decision : Option DecisionCard
deriving Repr, DecidableEq

/-- PrepDecisionEngine quantity rule (src/app.py:1209-1213). -/
def compute_suggested_grams (predicted_diners_next_wave pan_fill_percent portion_grams pan_capacity_portions : ℤ) : ℤ :=
  let current_portions : ℚ := ((pan_fill_percent : ℚ) / 100) * (pan_capacity_portions : ℚ)
  let portions_needed : ℚ := max ((predicted_diners_next_wave : ℚ) - current_portions) 0
  let suggested_grams : ℤ := pyInt (portions_needed * (portion_grams : ℚ))
  max 0 (min suggested_grams 4000)

/-- Satisfaction display mapping (src/app.py:1216-1220). -/
def compute_satisfaction_percent (feedback_scores : List ℤ) : Option ℤ :=
  if feedback_scores = [] then none
  else
    let avg : ℚ := (feedback_scores.sum : ℚ) / (feedback_scores.length : ℚ)
    some (pyInt (33 + (avg - 1) * (67 / 2)))

/-- Urgency tier of the kitchen card, from the suggested grams and the pan
fill percent (src/app.py:1380-1394); only the tier name is modelled, the
headline/detail strings are display templates of the same branch. -/
def signalLevel (suggested_grams pan_fill_percent : ℤ) : String :=
  if suggested_grams ≥ 1800 ∨ pan_fill_percent ≤ 35 then "critical"
  else if suggested_grams ≥ 600 ∨ pan_fill_percent ≤ 55 then "warning"
  else "ready"

/-- The claim's quantity rule with `round` taken literally
(`grams = round(shortfall * portionGrams)`, clamped to [0, 4000]), for
comparison against the source function. -/
def specSuggestedGramsRound (predicted pan_fill portion_grams capacity : ℤ) : ℤ :=
  let shortfall : ℚ := max ((predicted : ℚ) - ((pan_fill : ℚ) / 100) * (capacity : ℚ)) 0
  max 0 (min (pyRound (shortfall * (portion_grams : ℚ))) 4000)

/-- The claim's quantity rule amended so that the gram value is truncated
toward zero (Python `int`) instead of rounded. -/
def specSuggestedGramsTrunc (predicted pan_fill portion_grams capacity : ℤ) : ℤ :=
  let shortfall : ℚ := max ((predicted : ℚ) - ((pan_fill : ℚ) / 100) * (capacity : ℚ)) 0
  max 0 (min (pyInt (shortfall * (portion_grams : ℚ))) 4000)

/-- The claim's satisfaction rule with `rounded to an integer` taken
literally, for comparison against the source function. -/
def specSatisfactionRound (scores : List ℤ) : Option ℤ :=
  if scores = [] then none
  else
    let avg : ℚ := (scores.sum : ℚ) / (scores.length : ℚ)
    some (pyRound (33 + (avg - 1) * (67 / 2)))

/-- The claim's satisfaction rule amended to truncate (Python `int`)
instead of rounding. -/
def specSatisfactionTrunc (scores : List ℤ) : Option ℤ :=
  if scores = [] then none
  else
    let avg : ℚ := (scores.sum : ℚ) / (scores.length : ℚ)
    some (pyInt (33 + (avg - 1) * (67 / 2)))

/-- Numeric question-key weight table (src/app.py:864-869). -/
def NUMERIC_FEEDBACK_WEIGHTS : List (String × ℚ) :=
  [("smell", 5/100), ("appearance", 4/100), ("staff_warmth", 3/100),
   ("value_for_money", 6/100)]

/-- Categorical question-key weight tables (src/app.py:870-876). -/
def CATEGORICAL_FEEDBACK_WEIGHTS : List (String × List (String × ℚ)) :=
  [("temperature", [("too_cold", -5/100), ("just_right", 2/100), ("too_hot", -3/100)]),
   ("wait_time", [("quick", 5/100), ("ok", 0), ("too_long", -8/100)]),
   ("flow_speed", [("smooth", 4/100), ("stop_and_go", -3/100), ("stalled", -7/100)]),
   ("portion_size", [("too_light", -5/100), ("just_right", 3/100), ("too_heavy", -2/100)]),
   ("overall_mood", [("energized", 5/100), ("content", 2/100), ("neutral", -15/1000)])]

def MAX_DETAILED_FEEDBACK_SAMPLES : ℕ := 160

/-- The newest-first scan of detailed entries (src/app.py:1244-1259): walk
the reversed history, stop once `samples` non-stale entries were taken,
skip stale entries without counting them, and collect every (key, value)
response pair of the entries taken. -/
def scanEntries : List FeedbackEntry → ℕ → List (String × Resp)
  | [], _ => []
  | e :: rest, samples =>
    if MAX_DETAILED_FEEDBACK_SAMPLES ≤ samples then []
    else if e.stale then scanEntries rest samples
    else e.responses ++ scanEntries rest (samples + 1)

/-- Values collected under one question key, in scan order
(`stats[key].append(str(value))`, src/app.py:1242-1258). -/
def valuesFor (pairs : List (String × Resp)) (key : String) : List Resp :=
  (pairs.filter (fun p => p.1 = key)).map (·.2)

/-- Python `float(raw)` on the stored string: succeeds exactly on the
numeric answers. -/
def respToFloat : Resp → Option ℚ
  | .num q => some q
  | .cat _ => none

/-- Categorical lookup `mapping.get(value, 0.0)` (src/app.py:1278): a
numeric string is absent from every answer table. -/
def respCatWeight (mapping : List (String × ℚ)) : Resp → ℚ
  | .num _ => 0
  | .cat s => ((mapping.find? (fun p => p.1 = s)).map (·.2)).getD 0

/-- Delta of one numeric-weighted key (src/app.py:1262-1275): parse the
collected values, skip the key if none parse, otherwise normalize the
average around center 3 and scale by the key's weight. -/
def numericKeyDelta (pairs : List (String × Resp)) (key : String) (weight : ℚ) : Option ℚ :=
  let numbers := (valuesFor pairs key).filterMap respToFloat
  if numbers = [] then none
  else
    let avg_value : ℚ := numbers.sum / (numbers.length : ℚ)
    some (((avg_value - 3) / 2) * weight)

/-- Delta of one categorical key (src/app.py:1276-1283): average the
per-answer deltas (unknown answers count as 0), skipping the key when no
value was collected. -/
def categoricalKeyDelta (pairs : List (String × Resp)) (key : String) (mapping : List (String × ℚ)) : Option ℚ :=
  let values := valuesFor pairs key
  let weights := values.map (respCatWeight mapping)
  if weights = [] then none
  else some (weights.sum / (weights.length : ℚ))

/-- Quick-rating component of the total delta (src/app.py:1231-1236). -/
def ratingDelta (scores : List ℤ) : ℚ :=
  ((scores.sum : ℚ) / (scores.length : ℚ) - 2) * (8/100)

/-- Sum of all detailed-feedback key deltas.  The source iterates the keys
of the collected `stats` dict; summing instead over the two fixed weight
tables is equivalent because a key outside both tables contributes nothing
and a table key with no collected values is skipped (`getD 0`). -/
def detailedTotalDelta (entries : List FeedbackEntry) : ℚ :=
  let pairs := scanEntries entries.reverse 0
  (NUMERIC_FEEDBACK_WEIGHTS.map (fun kw => (numericKeyDelta pairs kw.1 kw.2).getD 0)).sum
    + (CATEGORICAL_FEEDBACK_WEIGHTS.map (fun km => (categoricalKeyDelta pairs km.1 km.2).getD 0)).sum

/-- Unclamped total delta of src/app.py:1228-1283: the rating component is
added only when the score history is non-empty, the detailed component only
when the entry history is non-empty. -/
def feedbackTotalDelta (scores : List ℤ) (entries : List FeedbackEntry) : ℚ :=
  (if scores = [] then 0 else ratingDelta scores)
    + (if entries = [] then 0 else detailedTotalDelta entries)

/-- FeedbackSignalAggregator (src/app.py:1223-1288), with the two histories
passed explicitly as `compute_current_state` does (src/app.py:1317-1321);
the default-argument path merely fetches the same histories from storage.
Returns the multiplier and the rounded per-key breakdown. -/
def compute_feedback_demand_multiplier (scores : List ℤ) (entries : List FeedbackEntry) :
    ℚ × List (String × ℚ) :=
  let pairs := scanEntries entries.reverse 0
  let ratingAdj : List (String × ℚ) :=
    if scores = [] then [] else [("tray_rating", round4 (ratingDelta scores))]
  let numericAdj : List (String × ℚ) :=
    if entries = [] then []
    else NUMERIC_FEEDBACK_WEIGHTS.filterMap
      (fun kw => (numericKeyDelta pairs kw.1 kw.2).map (fun d => (kw.1, round4 d)))
  let catAdj : List (String × ℚ) :=
    if entries = [] then []
    else CATEGORICAL_FEEDBACK_WEIGHTS.filterMap
      (fun km => (categoricalKeyDelta pairs km.1 km.2).map (fun d => (km.1, round4 d)))
  let total_delta := feedbackTotalDelta scores entries
  let bounded_delta := max (-(2/10)) (min total_delta (18/100))
  let multiplier := 1 + bounded_delta
  (multiplier, ratingAdj ++ numericAdj ++ catAdj ++ [("combined_delta", round4 bounded_delta)])

/-- Fixed expected-diner pattern of the stub forecaster (src/app.py:1118). -/
def EXPECTED_WAVES : List ℤ := [10, 30, 40, 25, 15]

/-- StubForecastAdapter.predict_next_wave (src/app.py:1120-1135).  The
`site` argument is unused by the source body; `isWeekend` stands for
`datetime.now().weekday() >= 5`. -/
def predict_next_wave (site : SiteConfig) (isWeekend : Bool) (service_day : ServiceDay)
    (wave_index : ℤ) (feedback_multiplier : ℚ) : ℤ :=
  let _ := site
  let idx : ℤ := min (max wave_index 0) (EXPECTED_WAVES.length - 1)
  let expected_in_wave : ℤ :=
    if isWeekend then pyInt ((EXPECTED_WAVES.getD idx.toNat 0 : ℚ) * (7/10))
    else EXPECTED_WAVES.getD idx.toNat 0
  let remaining_expected : ℤ := max (service_day.total_expected_diners - service_day.diners_so_far) 0
  let total_waves : ℤ := EXPECTED_WAVES.length
  let remaining_waves : ℤ := max (total_waves - wave_index) 1
  let base_for_wave : ℚ := (remaining_expected : ℚ) / (remaining_waves : ℚ)
  let predicted : ℚ := (1/2) * (expected_in_wave : ℚ) + (1/2) * base_for_wave
  max (pyInt (predicted * feedback_multiplier)) 0

/-- The claim's forecast formula taken literally, with the weekend
discount an exact multiplication by 0.7 (no truncation before the blend),
for comparison against the source function. -/
def specPredictNextWave (isWeekend : Bool) (totalExpected dinersSoFar wave_index : ℤ)
    (feedback_multiplier : ℚ) : ℤ :=
  let idx : ℤ := min (max wave_index 0) (EXPECTED_WAVES.length - 1)
  let expected_in_wave : ℚ :=
    if isWeekend then (EXPECTED_WAVES.getD idx.toNat 0 : ℚ) * (7/10)
    else (EXPECTED_WAVES.getD idx.toNat 0 : ℚ)
  let remaining_expected : ℤ := max (totalExpected - dinersSoFar) 0
  let remaining_waves : ℤ := max (EXPECTED_WAVES.length - wave_index) 1
  let base_for_wave : ℚ := (remaining_expected : ℚ) / (remaining_waves : ℚ)
  let predicted : ℚ := (1/2) * expected_in_wave + (1/2) * base_for_wave
  max (pyInt (predicted * feedback_multiplier)) 0

/-- The claim's forecast formula amended at one point: on weekend days the
discounted pattern value `0.7 * pattern[idx]` is truncated to an integer
before entering the blend. -/
def specPredictNextWaveTrunc (isWeekend : Bool) (totalExpected dinersSoFar wave_index : ℤ)
    (feedback_multiplier : ℚ) : ℤ :=
  let idx : ℤ := min (max wave_index 0) (EXPECTED_WAVES.length - 1)
  let expected_in_wave : ℤ :=
    if isWeekend then pyInt ((EXPECTED_WAVES.getD idx.toNat 0 : ℚ) * (7/10))
    else EXPECTED_WAVES.getD idx.toNat 0
  let remaining_expected : ℤ := max (totalExpected - dinersSoFar) 0
  let remaining_waves : ℤ := max (EXPECTED_WAVES.length - wave_index) 1
  let base_for_wave : ℚ := (remaining_expected : ℚ) / (remaining_waves : ℚ)
  let predicted : ℚ := (1/2) * (expected_in_wave : ℚ) + (1/2) * base_for_wave
  max (pyInt (predicted * feedback_multiplier)) 0

/-- The card-identity fields of a done/skip request body
(src/app.py:1967-1974): each is `payload.get(...)`, `none` when the key is
absent.  The source's early `if not payload: return card` shortcut for an
empty dict coincides with the all-`none` case falling through every check,
so the empty body needs no separate representation. -/
structure Payload where
  decision_wave_index : Option ℤ
  decision_timestamp : Option String
  service_slot : Option String
deriving Repr, DecidableEq

/-- Staleness guard (src/app.py:1961-1976): no active card never matches; a
supplied field must equal the card's, an absent field is a wildcard. -/
def get_matching_decision (service_day : ServiceDay) (payload : Payload) : Option DecisionCard :=
  match service_day.last_decision with
  | none => none
  | some card =>
    match payload.decision_wave_index with
    | some w => if card.wave_index ≠ w then none else
        match payload.decision_timestamp with
        | some ts => if ts ≠ card.timestamp then none else
            match payload.service_slot with
            | some slot => if card.service_slot ≠ slot then none else some card
            | none => some card
        | none =>
            match payload.service_slot with
            | some slot => if card.service_slot ≠ slot then none else some card
            | none => some card
    | none =>
        match payload.decision_timestamp with
        | some ts => if ts ≠ card.timestamp then none else
            match payload.service_slot with
            | some slot => if card.service_slot ≠ slot then none else some card
            | none => some card
        | none =>
            match payload.service_slot with
            | some slot => if card.service_slot ≠ slot then none else some card
            | none => some card

/-- Pan credit of a completed refill (src/app.py:1954-1958). -/
def adjust_pan_after_refill (service_day : ServiceDay) (suggested_grams portion_grams capacity_portions : ℤ) : ServiceDay :=
  let portions_added : ℚ := if suggested_grams = 0 then 0 else (suggested_grams : ℚ) / (portion_grams : ℚ)
  let current_portions : ℚ := ((service_day.pan_fill_percent : ℚ) / 100) * (capacity_portions : ℚ)
  let new_portions : ℚ := min (capacity_portions : ℚ) (current_portions + portions_added)
  { service_day with
    pan_fill_percent := pyInt ((new_portions / (capacity_portions : ℚ)) * 100) }

/-- POST /api/done (src/app.py:2395-2406).  `get_site_config` always
resolves to `flavoria`.  On a match the pan is credited and the matched
card (the session's `last_decision` object) is marked done; on a mismatch
the handler returns the 409 StaleDecision response with no mutation. -/
def api_done (service_day : ServiceDay) (payload : Payload) : ServiceDay × Bool :=
  match get_matching_decision service_day payload with
  | none => (service_day, false)
  | some card =>
    let sd := adjust_pan_after_refill service_day card.suggested_grams
      flavoria.portion_grams flavoria.pan_capacity_portions
    ({ sd with last_decision := some { card with status := "done" } }, true)

/-- POST /api/skip (src/app.py:2409-2418). -/
def api_skip (service_day : ServiceDay) (payload : Payload) : ServiceDay × Bool :=
  match get_matching_decision service_day payload with
  | none => (service_day, false)
  | some card =>
    ({ service_day with last_decision := some { card with status := "skipped" } }, true)

/-- POST /api/increment_diner (src/app.py:2328-2335). -/
def api_increment_diner (service_day : ServiceDay) (delta : ℤ) : ServiceDay :=
  { service_day with diners_so_far := max (service_day.diners_so_far + delta) 0 }

/-- POST /api/feedback (src/app.py:2338-2360), without the display-only
reaction metadata: an invalid rating is rejected, a valid one is appended
with the 100-entry cap and mirrored into the reaction stream (75-entry cap). -/
def api_feedback (service_day : ServiceDay) (rating : ℤ) (now_iso : String) : ServiceDay × Bool :=
  if rating = 1 ∨ rating = 2 ∨ rating = 3 then
    let sd := { service_day with
      feedback_scores := lastN 100 (service_day.feedback_scores ++ [rating]) }
    let reaction : Reaction :=
      { timestamp := now_iso, response_key := "lunch_pulse", value := toString rating }
    ({ sd with reaction_stream := lastN 75 (sd.reaction_stream ++ [reaction]) }, true)
  else (service_day, false)

/-- POST /api/feedback_extended (src/app.py:2363-2392), reactions reduced
as above: an empty/missing responses map is rejected, otherwise the entry
is appended with the 400-entry cap (a fresh entry carries the current
timestamp, hence is not stale) and each response is mirrored into the
reaction stream. -/
def api_feedback_extended (service_day : ServiceDay) (responses : List (String × Resp)) (now_iso : String) : ServiceDay × Bool :=
  if responses = [] then (service_day, false)
  else
    let entry : FeedbackEntry := { stale := false, responses := responses }
    let sd := { service_day with
      detailed_feedback := lastN 400 (service_day.detailed_feedback ++ [entry]) }
    let reactions := responses.map (fun kv =>
      { timestamp := now_iso, response_key := kv.1, value := "" : Reaction })
    ({ sd with reaction_stream := lastN 75 (sd.reaction_stream ++ reactions) }, true)

/-- Demo-mode pan consumption inside the recomputation
(src/app.py:1332-1333): the only write to `pan_fill_percent` on the
forecast-driven path, active when `DEMO_MODE` holds and the pan is at least
75% full. -/
def demoPanFill (demo_mode : Bool) (pan_fill_percent : ℤ) : ℤ :=
  if demo_mode ∧ pan_fill_percent ≥ 75 then max 45 (pan_fill_percent - 20)
  else pan_fill_percent

/-- Per-site session preset (src/app.py:483-498 with the fallback defaults
of src/app.py:1188-1204): the values `get_or_create_service_day` installs
in a freshly created session. -/
structure Preset where
  total_expected_diners : ℤ
  diners_so_far : ℤ
  wave_index : ℤ
  pan_fill_percent : ℤ
  feedback_scores : List ℤ
deriving Repr, DecidableEq

/-- The flavoria entry of SERVICE_DAY_PRESETS (src/app.py:483-498). -/
def flavoriaPreset : Preset :=
  { total_expected_diners := 360
    diners_so_far := 148
    wave_index := 2
    pan_fill_percent := 46
    feedback_scores := [3, 3, 2, 3, 3, 1, 3, 2, 3, 2, 3, 3] }

/-- External event-store streams of one (site, date) key
(src/app.py:738-747): quick ratings, detailed feedback, reactions.
Entries are kept typed; a corrupt persisted record is dropped on read in
the source and therefore never observable. -/
structure StoreState where
  scores : List ℤ
  detailed : List FeedbackEntry
  reactions : List Reaction
deriving Repr, DecidableEq

def emptyStore : StoreState := { scores := [], detailed := [], reactions := [] }

/-- The ambient state for one (site, date) key: the SERVICE_DAYS registry
entry (src/app.py:275) and the key's event-store streams. -/
structure AppState where
  session : Option ServiceDay
  store : StoreState
deriving Repr, DecidableEq

/-- The ServiceDay constructor call of get_or_create_service_day
(src/app.py:1188-1204): every field is drawn from the preset or its
fallback default; the histories other than quick ratings start empty and
no decision card is active. -/
def freshServiceDay (preset : Preset) : ServiceDay :=
  { site_id := "flavoria"
    total_expected_diners := preset.total_expected_diners
    diners_so_far := preset.diners_so_far
    wave_index := preset.wave_index
    pan_fill_percent := preset.pan_fill_percent
    feedback_scores := preset.feedback_scores
    detailed_feedback := []
    reaction_stream := []
    last_decision := none }

/-- _hydrate_service_day_from_store (src/app.py:777-795): each history is
replaced only when its persisted stream is non-empty. -/
def hydrateServiceDay (sd : ServiceDay) (store : StoreState) : ServiceDay :=
  let sd1 := if store.reactions = [] then sd else { sd with reaction_stream := store.reactions }
  let sd2 := if store.scores = [] then sd1 else { sd1 with feedback_scores := store.scores }
  if store.detailed = [] then sd2 else { sd2 with detailed_feedback := store.detailed }

/-- get_or_create_service_day (src/app.py:1180-1206): return the existing
session, or create one from the preset and hydrate it from the store. -/
def get_or_create_service_day (preset : Preset) (st : AppState) : ServiceDay × AppState :=
  match st.session with
  | some sd => (sd, st)
  | none =>
    let sd := hydrateServiceDay (freshServiceDay preset) st.store
    (sd, { st with session := some sd })

/-- POST /api/reset_day (src/app.py:2453-2462): pop the session (when it
was absent the source recreates it only to learn the storage key), delete
the key's three event-store streams, and pop again so the next access
recreates from scratch. -/
def api_reset_day (preset : Preset) (st : AppState) : AppState :=
  let st1 : AppState := { st with session := none }
  let st2 : AppState :=
    match st.session with
    | some _ => st1
    | none => (get_or_create_service_day preset st1).2
  let st3 : AppState := { st2 with store := emptyStore }
  { st3 with session := none }

/-- With the flavoria portion/capacity configuration the quantity rule is
exact integer arithmetic: `160*p - 32*f` carries no fractional part, so the
Python `int(...)` truncation is the identity. -/
theorem compute_suggested_grams_flavoria (p f : ℤ) :
    compute_suggested_grams p f 160 20 = max 0 (min (max (160 * p - 32 * f) 0) 4000) := by
  have h2 : max ((p : ℚ) - (f : ℚ) / 100 * 20) 0 * (160 : ℚ)
      = ((max (160 * p - 32 * f) 0 : ℤ) : ℚ) := by
    rw [max_mul_of_nonneg _ _ (by norm_num : (0:ℚ) ≤ 160), Int.cast_max]
    congr 1
    · push_cast; ring
    · ring
  simp only [compute_suggested_grams]
  push_cast
  rw [h2, pyInt_intCast]

/-- Every gram quantity the engine can put on a decision card is divisible
by 32: the unclamped value is `160*p - 32*f` and both clamp bounds 0 and
4000 are multiples of 32. -/
theorem dvd32_suggested_grams (p f : ℤ) : (32 : ℤ) ∣ compute_suggested_grams p f 160 20 := by
  rw [compute_suggested_grams_flavoria]
  rcases max_choice (160 * p - 32 * f) (0 : ℤ) with h | h <;> rw [h]
  · rcases min_choice (160 * p - 32 * f) (4000 : ℤ) with h' | h' <;> rw [h']
    · rcases max_choice (0 : ℤ) (160 * p - 32 * f) with h'' | h'' <;> rw [h'']
      · exact ⟨0, by ring⟩
      · exact ⟨5 * p - f, by ring⟩
    · rcases max_choice (0 : ℤ) (4000 : ℤ) with h'' | h'' <;> rw [h'']
      · exact ⟨0, by ring⟩
      · exact ⟨125, by ring⟩
  · simp

/-- When the credited grams are a multiple of 32 (which
`dvd32_suggested_grams` shows holds for every engine-produced card), the
refill credit is exact: the stored percent is the old percent plus the
percent equivalent of `grams / portionGrams` portions, clamped at a full
pan, with no truncation loss. -/
theorem adjust_pan_exact (sd : ServiceDay) (g : ℤ) (h32 : (32 : ℤ) ∣ g) :
    ((adjust_pan_after_refill sd g 160 20).pan_fill_percent : ℚ)
      = min 100 ((sd.pan_fill_percent : ℚ) + 100 * (((g : ℚ) / 160) / 20)) := by
  obtain ⟨k, hk⟩ := h32
  have hadd : (if g = 0 then (0:ℚ) else (g : ℚ) / 160) = (g : ℚ) / 160 := by
    split <;> simp_all
  have key : (min (20 : ℚ) ((sd.pan_fill_percent : ℚ) / 100 * 20 + (g : ℚ) / 160) / 20) * 100
      = ((min 100 (sd.pan_fill_percent + k) : ℤ) : ℚ) := by
    have h5 : (min (20 : ℚ) ((sd.pan_fill_percent : ℚ) / 100 * 20 + (g : ℚ) / 160) / 20) * 100
        = min (20 : ℚ) ((sd.pan_fill_percent : ℚ) / 100 * 20 + (g : ℚ) / 160) * 5 := by
      ring
    rw [h5, min_mul_of_nonneg _ _ (by norm_num : (0:ℚ) ≤ 5), Int.cast_min]
    congr 1
    · push_cast; norm_num
    · push_cast [hk]; ring
  simp only [adjust_pan_after_refill]
  push_cast
  rw [hadd, key, pyInt_intCast]
  push_cast
  congr 1
  rw [hk]; push_cast; ring

/-- A done/skip request body that supplies none of the three identity
fields (in particular the empty JSON body). -/
def wildcardPayload : Payload :=
  { decision_wave_index := none, decision_timestamp := none, service_slot := none }

theorem get_matching_decision_wildcard (sd : ServiceDay) (card : DecisionCard)
    (h : sd.last_decision = some card) :
    get_matching_decision sd wildcardPayload = some card := by
  simp [get_matching_decision, wildcardPayload, h]

theorem get_matching_decision_mismatch (sd : ServiceDay) (card : DecisionCard)
    (w : ℤ) (ts slot : String) (h : sd.last_decision = some card)
    (hne : ¬(card.wave_index = w ∧ card.timestamp = ts ∧ card.service_slot = slot)) :
    get_matching_decision sd
      { decision_wave_index := some w, decision_timestamp := some ts,
        service_slot := some slot } = none := by
  simp only [get_matching_decision, h]
  by_cases h1 : card.wave_index = w
  · by_cases h2 : ts = card.timestamp
    · by_cases h3 : card.service_slot = slot
      · exact absurd ⟨h1, h2.symm, h3⟩ hne
      · simp [h1, h2, h3]
    · simp [h1, h2]
  · simp [h1]

/-- Example decision card, matching the numbers of the spec's worked
example (predicted 15, pan 60% at computation time would give 480 g). -/
def cardEx : DecisionCard :=
  { site_id := "flavoria", wave_index := 2, timestamp := "2026-10-12T11:30:00",
    predicted_diners_next_wave := 15, suggested_grams := 480, pan_fill_percent := 46,
    satisfaction_percent := some 78, dish_name := "Nordic Salmon", dish_type := "fish",
    suggested_portions := 3, note := "", service_slot := "favourite_1",
    slot_label := "Favourite 1", station_label := some "Lunch Line", status := "pending" }

/-- Example session with `cardEx` active. -/
def sdEx : ServiceDay :=
  { site_id := "flavoria", total_expected_diners := 360, diners_so_far := 148,
    wave_index := 2, pan_fill_percent := 46, feedback_scores := [3, 3, 2],
    detailed_feedback := [], reaction_stream := [], last_decision := some cardEx }

/-- Example session for the forecaster: 1 expected diner, none served. -/
def sdForecastEx : ServiceDay :=
  { site_id := "flavoria", total_expected_diners := 1, diners_so_far := 0,
    wave_index := 0, pan_fill_percent := 60, feedback_scores := [],
    detailed_feedback := [], reaction_stream := [], last_decision := none }

/-- Claim C1: for every retained quick-rating history and every
detailed-feedback history, the multiplier returned by
compute_feedback_demand_multiplier lies in [0.8, 1.18]; it equals 1.0 plus
the combined delta clamped to [-0.2, 0.18]. -/
theorem feedback_demand_multiplier_bounded :
    ∀ (scores : List ℤ) (entries : List FeedbackEntry),
      (0.8 : ℚ) ≤ (compute_feedback_demand_multiplier scores entries).1 ∧
      (compute_feedback_demand_multiplier scores entries).1 ≤ 1.18 ∧
      (compute_feedback_demand_multiplier scores entries).1
        = 1 + max (-0.2) (min (feedbackTotalDelta scores entries) 0.18) := by
  intro scores entries
  have h1 : (compute_feedback_demand_multiplier scores entries).1
      = 1 + max (-(2/10)) (min (feedbackTotalDelta scores entries) (18/100)) := rfl
  have hlo : (-(2/10) : ℚ) ≤ max (-(2/10)) (min (feedbackTotalDelta scores entries) (18/100)) :=
    le_max_left _ _
  have hhi : max (-(2/10)) (min (feedbackTotalDelta scores entries) (18/100)) ≤ (18/100 : ℚ) :=
    max_le (by norm_num) (min_le_right _ _)
  refine ⟨?_, ?_, ?_⟩
  · rw [h1, show (0.8 : ℚ) = 1 + (-(2/10)) by norm_num]
    exact add_le_add_left hlo 1
  · rw [h1, show (1.18 : ℚ) = 1 + (18/100) by norm_num]
    exact add_le_add_left hhi 1
  · rw [h1]; norm_num

/-- Claim C2 counterexample: at predicted=1, panFillPercent=10,
portionGrams=2, capacityPortions=1 the shortfall is 0.9 portions and the
raw gram value 1.8; the source truncates to 1 while the claim's
`round(...)` gives 2. -/
theorem suggested_grams_round_counterexample :
    compute_suggested_grams 1 10 2 1 = 1 ∧ specSuggestedGramsRound 1 10 2 1 = 2 :=
  ⟨by norm_num [compute_suggested_grams, pyInt],
   by norm_num [specSuggestedGramsRound, pyRound]⟩

/-- Claim C2 amended: compute_suggested_grams returns
`int(max(predicted - (panFillPercent/100)*capacityPortions, 0) * portionGrams)`
(truncation toward zero, not rounding) clamped to [0, 4000]; in particular
compute_suggested_grams(15, 60, 160, 20) = 480. -/
theorem suggested_grams_truncates :
    (∀ predicted pan_fill portion_grams capacity : ℤ,
      compute_suggested_grams predicted pan_fill portion_grams capacity
        = specSuggestedGramsTrunc predicted pan_fill portion_grams capacity) ∧
    compute_suggested_grams 15 60 160 20 = 480 :=
  ⟨fun _ _ _ _ => rfl, by norm_num [compute_suggested_grams, pyInt]⟩

/-- Claim C3: the urgency tier is critical iff grams >= 1800 or
panFillPercent <= 35, otherwise warning iff grams >= 600 or
panFillPercent <= 55, otherwise ready; grams=0 with panFillPercent=80 is
ready, and grams=2000 is critical for every pan fill percent. -/
theorem urgency_tier_characterization :
    ∀ grams pan_fill : ℤ,
      (signalLevel grams pan_fill = "critical" ↔ (grams ≥ 1800 ∨ pan_fill ≤ 35)) ∧
      (signalLevel grams pan_fill = "warning"
        ↔ (¬(grams ≥ 1800 ∨ pan_fill ≤ 35) ∧ (grams ≥ 600 ∨ pan_fill ≤ 55))) ∧
      (signalLevel grams pan_fill = "ready"
        ↔ (¬(grams ≥ 1800 ∨ pan_fill ≤ 35) ∧ ¬(grams ≥ 600 ∨ pan_fill ≤ 55))) ∧
      signalLevel 0 80 = "ready" ∧ signalLevel 2000 pan_fill = "critical" := by
  intro grams pan_fill
  refine ⟨?_, ?_, ?_, ?_, ?_⟩
  · unfold signalLevel; split_ifs with h1 h2 <;> simp_all
  · unfold signalLevel; split_ifs with h1 h2 <;> simp_all
  · unfold signalLevel; split_ifs with h1 h2 <;> simp_all
  · unfold signalLevel; norm_num
  · unfold signalLevel; split_ifs with h1 <;> simp_all

/-- Claim C4: a done action on a matching card raises pan fill by exactly
the percent equivalent of suggestedGrams/portionGrams portions, clamped at
full capacity (every engine-produced gram value is divisible by 32, which
makes the stored integer percent exact); no other exposed operation raises
pan fill, and the demo-mode recomputation write can only lower it. -/
theorem done_action_pan_credit :
    (∀ (sd : ServiceDay) (payload : Payload) (card : DecisionCard),
      get_matching_decision sd payload = some card →
      (32 : ℤ) ∣ card.suggested_grams →
      ((api_done sd payload).1.pan_fill_percent : ℚ)
        = min 100 ((sd.pan_fill_percent : ℚ)
            + 100 * (((card.suggested_grams : ℚ) / (flavoria.portion_grams : ℚ))
                / (flavoria.pan_capacity_portions : ℚ)))) ∧
    (∀ p f : ℤ,
      (32 : ℤ) ∣ compute_suggested_grams p f flavoria.portion_grams flavoria.pan_capacity_portions) ∧
    (∀ (sd : ServiceDay) (d : ℤ),
      (api_increment_diner sd d).pan_fill_percent = sd.pan_fill_percent) ∧
    (∀ (sd : ServiceDay) (r : ℤ) (t : String),
      ((api_feedback sd r t).1).pan_fill_percent = sd.pan_fill_percent) ∧
    (∀ (sd : ServiceDay) (rs : List (String × Resp)) (t : String),
      ((api_feedback_extended sd rs t).1).pan_fill_percent = sd.pan_fill_percent) ∧
    (∀ (sd : ServiceDay) (payload : Payload),
      ((api_skip sd payload).1).pan_fill_percent = sd.pan_fill_percent) ∧
    (∀ (demo : Bool) (f : ℤ), demoPanFill demo f ≤ f) := by
  refine ⟨?_, dvd32_suggested_grams, ?_, ?_, ?_, ?_, ?_⟩
  · intro sd payload card hmatch h32
    simp only [api_done, hmatch]
    exact adjust_pan_exact sd card.suggested_grams h32
  · intro sd d; rfl
  · intro sd r t; unfold api_feedback; split_ifs <;> rfl
  · intro sd rs t; unfold api_feedback_extended; split_ifs <;> rfl
  · intro sd payload
    unfold api_skip
    cases h : get_matching_decision sd payload <;> simp
  · intro demo f
    unfold demoPanFill
    split_ifs with h
    · exact max_le (by omega) (by omega)
    · exact le_refl f

/-- Claim C4 witness: completing the 480 g card of `sdEx` (46% full pan)
credits exactly 3 portions, i.e. 15 percent points. -/
theorem done_action_pan_credit_witness :
    ((api_done sdEx wildcardPayload).1.pan_fill_percent : ℚ)
      = min 100 ((sdEx.pan_fill_percent : ℚ)
          + 100 * (((cardEx.suggested_grams : ℚ) / (flavoria.portion_grams : ℚ))
              / (flavoria.pan_capacity_portions : ℚ))) :=
  done_action_pan_credit.1 sdEx wildcardPayload cardEx rfl ⟨15, rfl⟩

/-- Claim C5: a done or skip request whose fully supplied identity triple
differs from the active card is rejected (StaleDecision, the `false`/409
branch) and the session state, pan fill and card status included, is
returned unchanged. -/
theorem stale_identity_rejected_no_mutation :
    ∀ (sd : ServiceDay) (card : DecisionCard) (w : ℤ) (ts slot : String),
      sd.last_decision = some card →
      (w, ts, slot) ≠ (card.wave_index, card.timestamp, card.service_slot) →
      get_matching_decision sd
        { decision_wave_index := some w, decision_timestamp := some ts,
          service_slot := some slot } = none ∧
      api_done sd
        { decision_wave_index := some w, decision_timestamp := some ts,
          service_slot := some slot } = (sd, false) ∧
      api_skip sd
        { decision_wave_index := some w, decision_timestamp := some ts,
          service_slot := some slot } = (sd, false) := by
  intro sd card w ts slot h hne
  have hne' : ¬(card.wave_index = w ∧ card.timestamp = ts ∧ card.service_slot = slot) := by
    rintro ⟨a, b, c⟩
    exact hne (by rw [a, b, c])
  have hnone := get_matching_decision_mismatch sd card w ts slot h hne'
  refine ⟨hnone, ?_, ?_⟩
  · simp [api_done, hnone]
  · simp [api_skip, hnone]

/-- Claim C5 witness: targeting wave 1 while wave 2 is active is rejected
by both handlers and leaves `sdEx` untouched. -/
theorem stale_identity_rejected_no_mutation_witness :
    get_matching_decision sdEx
      { decision_wave_index := some 1, decision_timestamp := some "2026-10-12T11:30:00",
        service_slot := some "favourite_1" } = none ∧
    api_done sdEx
      { decision_wave_index := some 1, decision_timestamp := some "2026-10-12T11:30:00",
        service_slot := some "favourite_1" } = (sdEx, false) ∧
    api_skip sdEx
      { decision_wave_index := some 1, decision_timestamp := some "2026-10-12T11:30:00",
        service_slot := some "favourite_1" } = (sdEx, false) :=
  stale_identity_rejected_no_mutation sdEx cardEx 1 "2026-10-12T11:30:00" "favourite_1"
    rfl (by decide)

/-- Claim C6 counterexample: on a weekend at wave index 3 with one diner
remaining and multiplier 1, the source truncates the discounted pattern
value (int(25*0.7) = 17) and predicts 8, while the claim's formula with an
exact 0.7 discount (17.5) predicts 9. -/
theorem predict_next_wave_weekend_counterexample :
    predict_next_wave flavoria true sdForecastEx 3 1 = 8 ∧
    specPredictNextWave true sdForecastEx.total_expected_diners sdForecastEx.diners_so_far 3 1 = 9 := by
  constructor
  · have h : (EXPECTED_WAVES.getD (Int.toNat (min (max 3 0) (EXPECTED_WAVES.length - 1))) 0) = 25 := by rfl
    norm_num [predict_next_wave, sdForecastEx, EXPECTED_WAVES, pyInt] at h ⊢
    norm_num [h]
  · have h : (EXPECTED_WAVES.getD (Int.toNat (min (max 3 0) (EXPECTED_WAVES.length - 1))) 0) = 25 := by rfl
    norm_num [specPredictNextWave, sdForecastEx, EXPECTED_WAVES, pyInt] at h ⊢
    norm_num [h]

/-- Claim C6 amended: predict_next_wave clamps the wave index, takes the
pattern value (on weekends multiplied by 0.7 and truncated to an integer),
blends it half-and-half with remainingExpected/remainingWaves, scales by
the multiplier, truncates, and the result is always non-negative. -/
theorem predict_next_wave_formula :
    (∀ (site : SiteConfig) (isWeekend : Bool) (sd : ServiceDay) (w : ℤ) (m : ℚ),
      predict_next_wave site isWeekend sd w m
        = specPredictNextWaveTrunc isWeekend sd.total_expected_diners sd.diners_so_far w m) ∧
    (∀ (site : SiteConfig) (isWeekend : Bool) (sd : ServiceDay) (w : ℤ) (m : ℚ),
      0 ≤ predict_next_wave site isWeekend sd w m) :=
  ⟨fun _ _ _ _ _ => rfl, fun _ _ _ _ _ => le_max_right _ _⟩

/-- Claim C7 counterexample: for scores [1, 2] the raw value is 49.75; the
source truncates to 49 while the claim's `rounded to an integer` gives 50. -/
theorem satisfaction_round_counterexample :
    compute_satisfaction_percent [1, 2] = some 49 ∧ specSatisfactionRound [1, 2] = some 50 := by
  constructor
  · norm_num [compute_satisfaction_percent, pyInt]; simp
  · norm_num [specSatisfactionRound, pyRound]; simp

/-- Claim C7 amended: compute_satisfaction_percent returns none for an
empty list and otherwise `int(33 + (avg - 1) * 33.5)` (truncated, not
rounded); it maps [1,1,1] to 33 and [3,3,3] to 100. -/
theorem satisfaction_truncates :
    (∀ scores : List ℤ, compute_satisfaction_percent scores = specSatisfactionTrunc scores) ∧
    compute_satisfaction_percent [] = none ∧
    compute_satisfaction_percent [1, 1, 1] = some 33 ∧
    compute_satisfaction_percent [3, 3, 3] = some 100 := by
  refine ⟨fun _ => rfl, rfl, ?_, ?_⟩
  · norm_num [compute_satisfaction_percent, pyInt]; simp
  · norm_num [compute_satisfaction_percent, pyInt]; simp

/-- Claim C8: after api_reset_day the session entry is gone and the
external store streams are empty, so the next access recreates the session
exactly at its creation-time defaults: preset diners/pan fill/quick
ratings, empty detailed-feedback and reaction histories, no active card. -/
theorem reset_day_clears_session :
    ∀ (preset : Preset) (st : AppState),
      (api_reset_day preset st).session = none ∧
      (api_reset_day preset st).store = emptyStore ∧
      (get_or_create_service_day preset (api_reset_day preset st)).1 = freshServiceDay preset ∧
      (freshServiceDay preset).diners_so_far = preset.diners_so_far ∧
      (freshServiceDay preset).pan_fill_percent = preset.pan_fill_percent ∧
      (freshServiceDay preset).feedback_scores = preset.feedback_scores ∧
      (freshServiceDay preset).detailed_feedback = [] ∧
      (freshServiceDay preset).reaction_stream = [] ∧
      (freshServiceDay preset).last_decision = none := by
  intro preset st
  have hreset : api_reset_day preset st = { session := none, store := emptyStore } := by
    unfold api_reset_day get_or_create_service_day
    cases hs : st.session <;> simp [hs]
  exact ⟨by rw [hreset], by rw [hreset], by rw [hreset]; rfl, rfl, rfl, rfl, rfl, rfl, rfl⟩

/-- Claim C9 counterexample: api_increment_diner accepts a negative delta,
so the diners-so-far counter is not monotonic: from 148 a delta of -3
lowers it to 145. -/
theorem increment_diners_negative_delta_counterexample :
    (api_increment_diner sdEx (-3)).diners_so_far < sdEx.diners_so_far := by decide

/-- Claim C9 amended: the diners-so-far counter is non-decreasing under
api_increment_diner for every non-negative delta, and for every integer
delta (negative ones included) the result never goes below 0. -/
theorem increment_diners_clamped_monotone :
    ∀ (sd : ServiceDay) (delta : ℤ),
      (0 ≤ delta → sd.diners_so_far ≤ (api_increment_diner sd delta).diners_so_far) ∧
      0 ≤ (api_increment_diner sd delta).diners_so_far := by
  intro sd delta
  simp only [api_increment_diner]
  exact ⟨fun h => le_trans (by linarith) (le_max_left (sd.diners_so_far + delta) 0),
    le_max_right _ _⟩

/-- Claim C9 witness: incrementing `sdEx` by 5 does not decrease the
counter, and even the large negative delta -200 leaves the counter
clamped at a non-negative value. -/
theorem increment_diners_clamped_monotone_witness :
    sdEx.diners_so_far ≤ (api_increment_diner sdEx 5).diners_so_far ∧
    0 ≤ (api_increment_diner sdEx 5).diners_so_far ∧
    0 ≤ (api_increment_diner sdEx (-200)).diners_so_far :=
  ⟨(increment_diners_clamped_monotone sdEx 5).1 (by norm_num),
   (increment_diners_clamped_monotone sdEx 5).2,
   (increment_diners_clamped_monotone sdEx (-200)).2⟩

/-- Claim C10: a done or skip request that supplies none of the three
identity fields (in particular an empty body) always matches the active
decision card, so the action succeeds and mutates the session without any
caller-supplied identity. -/
theorem wildcard_identity_matches_active_card :
    ∀ (sd : ServiceDay) (card : DecisionCard),
      sd.last_decision = some card →
      get_matching_decision sd wildcardPayload = some card ∧
      (api_done sd wildcardPayload).2 = true ∧
      ((api_done sd wildcardPayload).1).last_decision = some { card with status := "done" } ∧
      (api_skip sd wildcardPayload).2 = true ∧
      ((api_skip sd wildcardPayload).1).last_decision = some { card with status := "skipped" } := by
  intro sd card h
  have hm := get_matching_decision_wildcard sd card h
  refine ⟨hm, ?_, ?_, ?_, ?_⟩ <;> simp [api_done, api_skip, hm]

/-- Claim C10 witness: an identity-free request against `sdEx` matches its
active card and both actions succeed and mutate the card's status. -/
theorem wildcard_identity_matches_active_card_witness :
    get_matching_decision sdEx wildcardPayload = some cardEx ∧
    (api_done sdEx wildcardPayload).2 = true ∧
    ((api_done sdEx wildcardPayload).1).last_decision = some { cardEx with status := "done" } ∧
    (api_skip sdEx wildcardPayload).2 = true ∧
    ((api_skip sdEx wildcardPayload).1).last_decision = some { cardEx with status := "skipped" } :=
  wildcard_identity_matches_active_card sdEx cardEx rfl
